import Mathlib

/-!
Verification development for the mapthens scrape-geocode-cache pipeline.

The embedding models the Go code of the interactive server (the `package main`
bundled into `src/public/app.js`) and of the batch scraper
(`src/mapthens-endpoints/scraper/scraper.go`).  Remote interactions — the HTTP
fetch of the listing page, the Mapbox geocoding service — and the file system
are modelled as explicit world and state parameters.

Coordinates are `float64` in Go, but the program performs no arithmetic on
them: each coordinate is either assigned verbatim from the decoded geocoding
response or set to a literal sentinel (0 in the server variant, -1 in the
batch variant).  They are therefore modelled by `Int`, which keeps every
definition executable and decidable while preserving the observable
pass-through behaviour exactly.
-/

namespace Mapthens

/-- The `Event` struct shared by both scraper variants (`app.js` server code
lines 145-156, `scraper.go` lines 22-33).  Field names follow the Go struct;
`latitude`/`longitude` model the `float64` coordinates as `Int` (pure
pass-through values, see module comment). -/
structure Event where
  date : String
  datetime : String
  category : String
  title : String
  event_link : String
  venue : String
  address : String
  description : String
  latitude : Int
  longitude : Int
deriving DecidableEq, Repr

/-- Process environment: `os.Getenv("MAPBOX_ACCESS_TOKEN")`.  Go's `Getenv`
returns the empty string when the variable is unset, so an absent credential
is modelled by `mapboxAccessToken = ""`. -/
structure Env where
  mapboxAccessToken : String
deriving DecidableEq

/-- Body of a geocoding HTTP response as the program observes it:
either bytes that fail JSON decoding, or a decoded `features` array where
each feature carries its `geometry.coordinates` pair `(longitude, latitude)`
(`MapboxResponse` in the server, `Response` in the batch scraper). -/
inductive GeoBody where
  | malformed : GeoBody
  | features : List (Int × Int) → GeoBody
deriving DecidableEq

/-- Outcome of one HTTP request: network-level failure (`http.Get` returns an
error) or a response with a status code and a body. -/
inductive RemoteOutcome (β : Type) where
  | netErr : RemoteOutcome β
  | resp : Nat → β → RemoteOutcome β
deriving DecidableEq

/-- The remote geocoding service, as a function of the query address and the
access token sent with the request. -/
structure GeoWorld where
  respond : String → String → RemoteOutcome GeoBody

/-- Error cases of the geocoder, one per `return 0, 0, fmt.Errorf(...)` site:
missing credential (server variant only), request error, non-200 status,
JSON decode error, and an empty `features` array. -/
inductive GeoError where
  | configurationError : GeoError
  | transportError : GeoError
  | upstreamError : Nat → GeoError
  | decodeError : GeoError
  | notFoundError : GeoError
deriving DecidableEq

/-- The request/response/decode part shared verbatim by both variants of
`geocodeAddress`: issue the GET, require status 200, decode the body, require
a non-empty `features` array, and return the first feature's
`(longitude, latitude)` pair. -/
def geocodeRequest (w : GeoWorld) (address token : String) :
    Except GeoError (Int × Int) :=
  match w.respond address token with
  | .netErr => .error .transportError
  | .resp status body =>
    if status = 200 then
      match body with
      | .malformed => .error .decodeError
      | .features [] => .error .notFoundError
      | .features (c :: _) => .ok c
    else .error (.upstreamError status)

/-- `geocodeAddress` of the interactive server (`app.js` server code lines
181-218): reads the token from the environment and fails with the
configuration error before issuing any request when it is empty. -/
def geocodeAddress (env : Env) (w : GeoWorld) (address : String) :
    Except GeoError (Int × Int) :=
  if env.mapboxAccessToken = "" then .error .configurationError
  else geocodeRequest w address env.mapboxAccessToken

/-- `geocodeAddress` of the batch scraper (`scraper.go` lines 47-81): reads the
token from the environment and issues the request unconditionally — there is
no emptiness check on the credential. -/
def geocodeAddressBatch (env : Env) (w : GeoWorld) (address : String) :
    Except GeoError (Int × Int) :=
  geocodeRequest w address env.mapboxAccessToken

/-- Character-by-character test that the first list begins with the second;
helper for `strHasPre`. -/
def charsHavePre : List Char → List Char → Bool
  | _, [] => true
  | [], _ :: _ => false
  | a :: as, b :: bs => a == b && charsHavePre as bs

/-- `strings.HasPrefix(s, p)`, defined over the character list so that it
evaluates by kernel reduction on closed inputs. -/
def strHasPre (s p : String) : Bool :=
  charsHavePre s.toList p.toList

/-- `strings.TrimSpace`: remove leading and trailing whitespace.  (Go trims
the full Unicode space class; the listing fields the program trims use only
ASCII whitespace, covered by `Char.isWhitespace`.) -/
def trimSpace (s : String) : String :=
  ⟨((s.toList.dropWhile Char.isWhitespace).reverse.dropWhile
      Char.isWhitespace).reverse⟩

/-- One listing entry matched by the
`.tribe-common-g-row.tribe-events-calendar-list__event-row` selector, as the
extractor observes it: the `datetime` attribute of the nested `time` element
(`none` when `Attr` reports it absent), the raw text of each display-field
selector (empty when the selector matches nothing), and the `href` attribute
of the title link. -/
structure Row where
  datetimeAttr : Option String
  datetimeText : String
  categoryText : String
  titleText : String
  hrefAttr : Option String
  venueText : String
  addressText : String
  descriptionText : String
deriving DecidableEq, Repr

/-- The date filter of the `Each` callback: the entry is kept exactly when the
`datetime` attribute exists and `strings.HasPrefix(dateAttr, today)` holds. -/
def rowMatches (today : String) (row : Row) : Bool :=
  match row.datetimeAttr with
  | none => false
  | some d => strHasPre d today

/-- Body of the `Each` callback of `scrapeEvents` (server variant lines
240-277, batch variant lines 102-135), parameterised by the geocoding function
and by the `(longitude, latitude)` sentinel assigned on geocoding failure —
`(0, 0)` in the server variant, `(-1, -1)` in the batch variant.  Returns
`none` when the early `return` skips the entry, otherwise the appended
`Event`.  `Attr("href")` with its ignored `exists` flag yields `""` when
absent. -/
def extractRow (geocode : String → Except GeoError (Int × Int))
    (sentinel : Int × Int) (today : String) (row : Row) : Option Event :=
  match row.datetimeAttr with
  | none => none
  | some dateAttr =>
    if strHasPre dateAttr today then
      let address := trimSpace row.addressText
      let coords :=
        match geocode address with
        | .error _ => sentinel
        | .ok c => c
      some {
        date := dateAttr
        datetime := trimSpace row.datetimeText
        category := trimSpace row.categoryText
        title := trimSpace row.titleText
        event_link := row.hrefAttr.getD ""
        venue := trimSpace row.venueText
        address := address
        description := trimSpace row.descriptionText
        latitude := coords.2
        longitude := coords.1 }
    else none

/-- The `Each` loop over all matched rows: each row either appends one event
to `eventList` or is skipped, in document order. -/
def extractRows (geocode : String → Except GeoError (Int × Int))
    (sentinel : Int × Int) (today : String) (rows : List Row) : List Event :=
  rows.filterMap (extractRow geocode sentinel today)

/-- Sentinel of the server variant: `latitude = 0; longitude = 0`. -/
def serverSentinel : Int × Int := (0, 0)

/-- Sentinel of the batch variant: `latitude = -1; longitude = -1`. -/
def batchSentinel : Int × Int := (-1, -1)

/-- Body of the listing-page response: bytes goquery fails to parse, or the
parsed document presented as its list of matched event rows. -/
inductive ListingBody where
  | unparsable : ListingBody
  | parsed : List Row → ListingBody

/-- The external world of one scrape: the listing-page fetch outcome and the
geocoding service. -/
structure World where
  listing : RemoteOutcome ListingBody
  geo : GeoWorld

/-- Whole-scrape failures of `scrapeEvents`: fetch error, non-200 status on
the listing page, or an unparsable document. -/
inductive ScrapeError where
  | fetchError : ScrapeError
  | non200 : Nat → ScrapeError
  | parseError : ScrapeError
deriving DecidableEq

/-- `scrapeEvents` of the interactive server (`app.js` server code lines
220-281): fetch the listing page, require status 200, parse, then run the
`Each` loop with `today := time.Now().Format("2006-01-02")` passed here as a
parameter, geocoding through the server `geocodeAddress` and using the
`(0, 0)` sentinel. -/
def scrapeEvents (env : Env) (w : World) (today : String) :
    Except ScrapeError (List Event) :=
  match w.listing with
  | .netErr => .error .fetchError
  | .resp status body =>
    if status = 200 then
      match body with
      | .unparsable => .error .parseError
      | .parsed rows =>
        .ok (extractRows (geocodeAddress env w.geo) serverSentinel today rows)
    else .error (.non200 status)

/-- `scrapeEvents` of the batch scraper (`scraper.go` lines 83-138): identical
structure, but geocoding through the batch `geocodeAddress` and using the
`(-1, -1)` sentinel. -/
def scrapeEventsBatch (env : Env) (w : World) (today : String) :
    Except ScrapeError (List Event) :=
  match w.listing with
  | .netErr => .error .fetchError
  | .resp status body =>
    if status = 200 then
      match body with
      | .unparsable => .error .parseError
      | .parsed rows =>
        .ok (extractRows (geocodeAddressBatch env w.geo) batchSentinel today rows)
    else .error (.non200 status)

/-- JSON values, at the level Go's `encoding/json` exposes them to the
program: the cache round trip is the struct↔JSON mapping induced by the
`json:"..."` tags, and `encoding/json` guarantees the byte↔value
correspondence, so the file content is modelled as a JSON value rather than
bytes.  Numbers are `Int` (the coordinate model, see module comment). -/
inductive Json where
  | null : Json
  | bool : Bool → Json
  | num : Int → Json
  | str : String → Json
  | arr : List Json → Json
  | obj : List (String × Json) → Json

/-- `json.Marshal` of one `Event`: an object with the ten tagged fields, in
struct order. -/
def encodeEvent (e : Event) : Json :=
  .obj [("date", .str e.date), ("datetime", .str e.datetime),
        ("category", .str e.category), ("title", .str e.title),
        ("event_link", .str e.event_link), ("venue", .str e.venue),
        ("address", .str e.address), ("description", .str e.description),
        ("latitude", .num e.latitude), ("longitude", .num e.longitude)]

/-- `json.MarshalIndent(events, "", "  ")` modulo whitespace: a JSON array of
the encoded events, in order.  (`MarshalIndent` cannot fail on `[]Event`.) -/
def encodeEvents (es : List Event) : Json :=
  .arr (es.map encodeEvent)

/-- Field lookup as `json.Unmarshal` performs it on an object: keys are
processed in order and a later duplicate overwrites an earlier one. -/
def lookupLast (fields : List (String × Json)) (k : String) : Option Json :=
  fields.foldl (fun acc p => if p.1 = k then some p.2 else acc) none

/-- Decoding a string-typed struct field: a missing or null field leaves the
zero value `""`; a JSON string is taken verbatim; any other JSON type is an
`UnmarshalTypeError`. -/
def asStr : Option Json → Except Unit String
  | none => .ok ""
  | some (.str s) => .ok s
  | some .null => .ok ""
  | some _ => .error ()

/-- Decoding a numeric struct field: missing or null leaves the zero value;
a JSON number is taken verbatim; any other JSON type is an error. -/
def asNum : Option Json → Except Unit Int
  | none => .ok 0
  | some (.num n) => .ok n
  | some .null => .ok 0
  | some _ => .error ()

/-- `json.Unmarshal` of one JSON value into an `Event` struct: objects are
decoded field by field through the `json:"..."` tags (unknown keys ignored),
null leaves the zero value, anything else is a type error. -/
def decodeEvent : Json → Except Unit Event
  | .obj fields => do
    let date ← asStr (lookupLast fields "date")
    let datetime ← asStr (lookupLast fields "datetime")
    let category ← asStr (lookupLast fields "category")
    let title ← asStr (lookupLast fields "title")
    let eventLink ← asStr (lookupLast fields "event_link")
    let venue ← asStr (lookupLast fields "venue")
    let address ← asStr (lookupLast fields "address")
    let description ← asStr (lookupLast fields "description")
    let latitude ← asNum (lookupLast fields "latitude")
    let longitude ← asNum (lookupLast fields "longitude")
    .ok ⟨date, datetime, category, title, eventLink, venue, address,
         description, latitude, longitude⟩
  | .null => .ok ⟨"", "", "", "", "", "", "", "", 0, 0⟩
  | _ => .error ()

/-- Element-wise decoding of a JSON array into `[]Event`: the first failing
element fails the whole decode. -/
def decodeEventList : List Json → Except Unit (List Event)
  | [] => .ok []
  | j :: js => do
    let e ← decodeEvent j
    let es ← decodeEventList js
    .ok (e :: es)

/-- `json.Unmarshal(data, &events)` for `events : []Event`: a JSON array
decodes element-wise, null yields the nil slice, anything else is an error. -/
def decodeEvents : Json → Except Unit (List Event)
  | .arr js => decodeEventList js
  | .null => .ok []
  | _ => .error ()

/-- Content of the cache file: bytes that parse as a JSON value, or bytes
that are not valid JSON at all. -/
inductive FileData where
  | valid : Json → FileData
  | invalid : FileData

/-- State of the cache path `events.json`: `none` when no file exists. -/
structure FS where
  file : Option FileData

/-- Failure cases of `loadEventsFromFile`: `os.ReadFile` error (no file) or
`json.Unmarshal` error. -/
inductive LoadError where
  | notFound : LoadError
  | decodeError : LoadError
deriving DecidableEq

/-- `saveEventsToFile` (lines 283-289), successful-write case: marshal the
collection and overwrite the file with it. -/
def saveEventsToFile (es : List Event) : FileData :=
  .valid (encodeEvents es)

/-- `loadEventsFromFile` (lines 291-301): read the file, then unmarshal. -/
def loadEventsFromFile (fs : FS) : Except LoadError (List Event) :=
  match fs.file with
  | none => .error .notFound
  | some .invalid => .error .decodeError
  | some (.valid j) =>
    match decodeEvents j with
    | .error _ => .error .decodeError
    | .ok es => .ok es

/-- Mutable state of the provider: the in-memory `eventsCache` slice (the Go
nil slice is `[]`) and the cache file. -/
structure ProviderState where
  eventsCache : List Event
  fs : FS

/-- Instrumentation of one `getEvents` call: how many times `scrapeEvents`
and `loadEventsFromFile` ran inside it. -/
structure CallStats where
  scrapes : Nat
  loads : Nat
deriving DecidableEq, Repr

/-- First block of `getEvents` (lines 311-321): if `eventsCache` is empty
and `os.Stat` finds the cache file, run `loadEventsFromFile` and adopt its
result only when it succeeds.  Returns the resulting `eventsCache` value and
the number of `loadEventsFromFile` invocations performed. -/
def loadPhase (s : ProviderState) : List Event × Nat :=
  if s.eventsCache.length = 0 then
    match s.fs.file with
    | some _ =>
      match loadEventsFromFile s.fs with
      | .ok es => (es, 1)
      | .error _ => (s.eventsCache, 1)
    | none => (s.eventsCache, 0)
  else (s.eventsCache, 0)

/-- `getEvents` (lines 303-336).  The whole body runs under `mutex.Lock()`,
so each call is one atomic step on `ProviderState`.  After the `loadPhase`
block, if the cache is still empty, run `scrapeEvents`; on error return it,
on success adopt the result and best-effort save it (`writeOk = false`
models a failed `WriteFile`, which is only logged).  Returns the new state,
the result, and the call's instrumentation counters. -/
def getEvents (env : Env) (w : World) (today : String) (writeOk : Bool)
    (s : ProviderState) :
    ProviderState × Except ScrapeError (List Event) × CallStats :=
  let cache₁ := (loadPhase s).1
  if cache₁.length = 0 then
    match scrapeEvents env w today with
    | .error e => (⟨cache₁, s.fs⟩, .error e, ⟨1, (loadPhase s).2⟩)
    | .ok es =>
      let fs₂ := if writeOk then FS.mk (some (saveEventsToFile es)) else s.fs
      (⟨es, fs₂⟩, .ok es, ⟨1, (loadPhase s).2⟩)
  else (⟨cache₁, s.fs⟩, .ok cache₁, ⟨0, (loadPhase s).2⟩)

/-- `n` consecutive `getEvents` calls.  The mutex serialises concurrent
callers, so `n` simultaneous requests execute as some sequence of `n` calls;
this function is that sequence, returning the final state, each caller's
result in order, and the summed instrumentation. -/
def getEventsN (env : Env) (w : World) (today : String) (writeOk : Bool) :
    Nat → ProviderState →
    ProviderState × List (Except ScrapeError (List Event)) × CallStats
  | 0, s => (s, [], ⟨0, 0⟩)
  | n + 1, s =>
    let step := getEvents env w today writeOk s
    let rest := getEventsN env w today writeOk n step.1
    (rest.1, step.2.1 :: rest.2.1,
     ⟨step.2.2.scrapes + rest.2.2.scrapes, step.2.2.loads + rest.2.2.loads⟩)

/-! Concrete sample inputs used to evaluate the definitions on closed data. -/

/-- A well-formed listing entry dated 2024-05-01 with every field present. -/
def exRow : Row :=
  ⟨some "2024-05-01T19:00:00-04:00", "7:00 pm", "Music", "Show",
   some "https://flagpole.com/e/1", "Georgia Theatre", "215 N Lumpkin St",
   "A concert."⟩

/-- An entry dated 2024-05-01 whose title selector matches nothing, so its
raw title text is empty. -/
def noTitleRow : Row :=
  ⟨some "2024-05-01T19:00:00-04:00", "7:00 pm", "", "", none, "", "", ""⟩

/-- An entry whose `time` element has no `datetime` attribute. -/
def noDateRow : Row :=
  ⟨none, "7:00 pm", "Music", "Show", none, "Venue", "Addr", ""⟩

/-- An entry dated on a different day than 2024-05-01. -/
def otherDayRow : Row :=
  ⟨some "2024-06-02T19:00:00-04:00", "7:00 pm", "Music", "Show", none,
   "Venue", "Addr", ""⟩

/-- A geocoding service that always answers 200 with one feature. -/
def geoOk : GeoWorld := ⟨fun _ _ => .resp 200 (.features [(-83, 33)])⟩

/-- A geocoding service whose transport always fails. -/
def geoDown : GeoWorld := ⟨fun _ _ => .netErr⟩

/-- An environment with a credential set. -/
def env0 : Env := ⟨"tok"⟩

/-- A world whose listing page parses to zero matching rows. -/
def emptyListingWorld : World := ⟨.resp 200 (.parsed []), geoOk⟩

/-- A world whose listing page parses to the single entry `exRow`. -/
def oneRowWorld : World := ⟨.resp 200 (.parsed [exRow]), geoOk⟩

/-- A world where fetching the listing page fails at the network level. -/
def fetchFailWorld : World := ⟨.netErr, geoOk⟩

/-! Helper lemmas about the embedding, shared by the claim theorems below. -/

/-- Decoding inverts encoding on one event. -/
theorem decode_encode_event (e : Event) : decodeEvent (encodeEvent e) = .ok e :=
  rfl

/-- Decoding inverts encoding on a whole collection. -/
theorem decode_encode_events (es : List Event) :
    decodeEvents (encodeEvents es) = .ok es := by
  simp only [decodeEvents, encodeEvents]
  induction es with
  | nil => rfl
  | cons e es ih =>
    simp only [List.map_cons, decodeEventList, decode_encode_event, ih]
    rfl

/-- The load block does nothing when the in-memory collection is already
non-empty. -/
theorem loadPhase_loaded (s : ProviderState) (h : s.eventsCache ≠ []) :
    loadPhase s = (s.eventsCache, 0) := by
  have hlen : s.eventsCache.length ≠ 0 := by
    simpa [List.length_eq_zero] using h
  simp only [loadPhase, if_neg hlen]

/-- A call that finds a non-empty in-memory collection returns it at once:
no load, no scrape, state unchanged. -/
theorem getEvents_loaded (env : Env) (w : World) (today : String)
    (wOk : Bool) (s : ProviderState) (h : s.eventsCache ≠ []) :
    getEvents env w today wOk s = (s, .ok s.eventsCache, ⟨0, 0⟩) := by
  have hlen : s.eventsCache.length ≠ 0 := by
    simpa [List.length_eq_zero] using h
  simp only [getEvents, loadPhase_loaded s h, if_neg hlen]

/-- Iterating calls from a state holding a non-empty collection returns that
collection to every caller with no load and no scrape. -/
theorem getEventsN_loaded (env : Env) (w : World) (today : String)
    (wOk : Bool) (n : Nat) (s : ProviderState) (h : s.eventsCache ≠ []) :
    getEventsN env w today wOk n s =
      (s, List.replicate n (.ok s.eventsCache), ⟨0, 0⟩) := by
  induction n with
  | zero => rfl
  | succ n ih =>
    simp only [getEventsN, getEvents_loaded env w today wOk s h, ih,
      List.replicate]

/-- Whenever a call returns a collection, the new in-memory state holds
exactly that collection. -/
theorem getEvents_ok_cache (env : Env) (w : World) (today : String)
    (wOk : Bool) (s : ProviderState) (es : List Event)
    (h : (getEvents env w today wOk s).2.1 = .ok es) :
    (getEvents env w today wOk s).1.eventsCache = es := by
  simp only [getEvents] at h ⊢
  by_cases hc : (loadPhase s).1.length = 0
  · rw [if_pos hc] at h ⊢
    cases hsc : scrapeEvents env w today with
    | error e => simp_all
    | ok es₁ => simp_all
  · rw [if_neg hc] at h ⊢
    simp_all

/-- An entry passes the extractor exactly when its date attribute exists and
is prefixed by today. -/
theorem extractRow_isSome (g : String → Except GeoError (Int × Int))
    (sentinel : Int × Int) (today : String) (r : Row) :
    (extractRow g sentinel today r).isSome = rowMatches today r := by
  rcases r with ⟨attr, _, _, _, _, _, _, _⟩
  cases attr with
  | none => rfl
  | some d =>
    by_cases hd : strHasPre d today = true
    · simp [extractRow, rowMatches, hd]
    · simp [extractRow, rowMatches, hd]

/-- An extracted event carries the trimmed title text of its source entry
and a date attribute prefixed by today. -/
theorem extractRow_some_fields (g : String → Except GeoError (Int × Int))
    (sentinel : Int × Int) (today : String) (r : Row) (e : Event)
    (h : extractRow g sentinel today r = some e) :
    e.title = trimSpace r.titleText ∧ strHasPre e.date today = true := by
  rcases r with ⟨attr, _, _, _, _, _, _, _⟩
  cases attr with
  | none => simp [extractRow] at h
  | some d =>
    by_cases hd : strHasPre d today = true
    · simp only [extractRow, hd, if_true] at h
      cases h
      exact ⟨rfl, hd⟩
    · simp [extractRow, hd] at h

/-- An entry whose geocoding call fails is still extracted, with the sentinel
assigned to both coordinates. -/
theorem extractRow_geoFail (g : String → Except GeoError (Int × Int))
    (sentinel : Int × Int) (today : String) (r : Row) (d : String)
    (err : GeoError) (hattr : r.datetimeAttr = some d)
    (hd : strHasPre d today = true)
    (hgeo : g (trimSpace r.addressText) = .error err) :
    extractRow g sentinel today r =
      some ⟨d, trimSpace r.datetimeText, trimSpace r.categoryText,
            trimSpace r.titleText, r.hrefAttr.getD "",
            trimSpace r.venueText, trimSpace r.addressText,
            trimSpace r.descriptionText, sentinel.2, sentinel.1⟩ := by
  simp [extractRow, hattr, hd, hgeo]

/-- When the in-memory collection is empty and the cache file cannot supply
a non-empty collection, the load block leaves the collection empty. -/
theorem loadPhase_empty (s : ProviderState) (hc : s.eventsCache = [])
    (hl : ∀ es, loadEventsFromFile s.fs = .ok es → es = []) :
    (loadPhase s).1 = [] := by
  cases hf : s.fs.file with
  | none => simp [loadPhase, hc, hf]
  | some fd =>
    cases hld : loadEventsFromFile s.fs with
    | ok es => simp [loadPhase, hc, hf, hld, hl es hld]
    | error e => simp [loadPhase, hc, hf, hld]

/-- A call whose load block yields nothing and whose scrape fails returns
the error, leaves the in-memory collection empty and the file untouched. -/
theorem getEvents_scrapeErr (env : Env) (w : World) (today : String)
    (wOk : Bool) (s : ProviderState) (e : ScrapeError)
    (hload : (loadPhase s).1 = [])
    (hs : scrapeEvents env w today = .error e) :
    getEvents env w today wOk s =
      (⟨[], s.fs⟩, .error e, ⟨1, (loadPhase s).2⟩) := by
  simp [getEvents, hload, hs]

/-- A call whose load block yields nothing and whose scrape succeeds adopts
the scraped collection and saves it when the write succeeds. -/
theorem getEvents_scrapeOk (env : Env) (w : World) (today : String)
    (wOk : Bool) (s : ProviderState) (es : List Event)
    (hload : (loadPhase s).1 = [])
    (hs : scrapeEvents env w today = .ok es) :
    getEvents env w today wOk s =
      (⟨es, if wOk then FS.mk (some (saveEventsToFile es)) else s.fs⟩,
       .ok es, ⟨1, (loadPhase s).2⟩) := by
  simp [getEvents, hload, hs]

/-- A call whose load block yields nothing always performs exactly one
scrape. -/
theorem getEvents_stats_when_empty (env : Env) (w : World) (today : String)
    (wOk : Bool) (s : ProviderState) (hload : (loadPhase s).1 = []) :
    (getEvents env w today wOk s).2.2 = ⟨1, (loadPhase s).2⟩ := by
  cases hs : scrapeEvents env w today with
  | error e => rw [getEvents_scrapeErr env w today wOk s e hload hs]
  | ok es => rw [getEvents_scrapeOk env w today wOk s es hload hs]

/-! Claim theorems. -/

/-- C1: for every listing document and every entry whose geocoding call
fails (with any `GeoError`), extraction does not abort: the entry's `Event`
still appears, in place, with the documented sentinel assigned to both
coordinates — `(0, 0)` in the server variant, `(-1, -1)` in the batch
variant — and all entries before and after it are still processed. -/
theorem c1_geocoder_failure_keeps_event_and_continues
    (g : String → Except GeoError (Int × Int)) (today : String)
    (pre post : List Row) (r : Row) (d : String) (err : GeoError)
    (hattr : r.datetimeAttr = some d)
    (hd : strHasPre d today = true)
    (hgeo : g (trimSpace r.addressText) = .error err) :
    extractRows g serverSentinel today (pre ++ r :: post) =
      extractRows g serverSentinel today pre ++
        ⟨d, trimSpace r.datetimeText, trimSpace r.categoryText,
         trimSpace r.titleText, r.hrefAttr.getD "", trimSpace r.venueText,
         trimSpace r.addressText, trimSpace r.descriptionText, 0, 0⟩ ::
        extractRows g serverSentinel today post ∧
    extractRows g batchSentinel today (pre ++ r :: post) =
      extractRows g batchSentinel today pre ++
        ⟨d, trimSpace r.datetimeText, trimSpace r.categoryText,
         trimSpace r.titleText, r.hrefAttr.getD "", trimSpace r.venueText,
         trimSpace r.addressText, trimSpace r.descriptionText, -1, -1⟩ ::
        extractRows g batchSentinel today post := by
  constructor <;>
  · simp [extractRows, List.filterMap_append, List.filterMap_cons,
      extractRow_geoFail g _ today r d err hattr hd hgeo, serverSentinel,
      batchSentinel]

/-- Witness for C1: a concrete one-row listing whose geocoding transport
fails still yields the event, with both sentinel variants. -/
theorem c1_witness :
    extractRows (geocodeAddress env0 geoDown) serverSentinel "2024-05-01"
        ([] ++ exRow :: []) =
      extractRows (geocodeAddress env0 geoDown) serverSentinel "2024-05-01"
          [] ++
        ⟨"2024-05-01T19:00:00-04:00", trimSpace exRow.datetimeText,
         trimSpace exRow.categoryText, trimSpace exRow.titleText,
         exRow.hrefAttr.getD "", trimSpace exRow.venueText,
         trimSpace exRow.addressText, trimSpace exRow.descriptionText,
         0, 0⟩ ::
        extractRows (geocodeAddress env0 geoDown) serverSentinel "2024-05-01"
          [] ∧
    extractRows (geocodeAddress env0 geoDown) batchSentinel "2024-05-01"
        ([] ++ exRow :: []) =
      extractRows (geocodeAddress env0 geoDown) batchSentinel "2024-05-01"
          [] ++
        ⟨"2024-05-01T19:00:00-04:00", trimSpace exRow.datetimeText,
         trimSpace exRow.categoryText, trimSpace exRow.titleText,
         exRow.hrefAttr.getD "", trimSpace exRow.venueText,
         trimSpace exRow.addressText, trimSpace exRow.descriptionText,
         -1, -1⟩ ::
        extractRows (geocodeAddress env0 geoDown) batchSentinel "2024-05-01"
          [] :=
  c1_geocoder_failure_keeps_event_and_continues
    (geocodeAddress env0 geoDown) "2024-05-01" [] [] exRow
    "2024-05-01T19:00:00-04:00" .transportError rfl (by decide) rfl

/-- C3: an entry is extracted exactly when its machine-readable date
attribute exists and is prefixed by today; a document all of whose rows
fail that test extracts to the empty sequence. -/
theorem c3_same_day_filter (g : String → Except GeoError (Int × Int))
    (sentinel : Int × Int) (today : String) :
    (∀ r : Row, (extractRow g sentinel today r).isSome = rowMatches today r) ∧
    (∀ rows : List Row, (∀ r ∈ rows, rowMatches today r = false) →
      extractRows g sentinel today rows = []) := by
  refine ⟨extractRow_isSome g sentinel today, ?_⟩
  intro rows h
  rw [extractRows, List.filterMap_eq_nil_iff]
  intro r hr
  have hs := extractRow_isSome g sentinel today r
  rw [h r hr] at hs
  cases hE : extractRow g sentinel today r with
  | none => rfl
  | some e => rw [hE] at hs; simp at hs

/-- Witness for C3: a two-row document — one row with no date attribute,
one dated another day — extracts to the empty sequence. -/
theorem c3_witness :
    extractRows (geocodeAddress env0 geoOk) serverSentinel "2024-05-01"
      [noDateRow, otherDayRow] = [] :=
  (c3_same_day_filter (geocodeAddress env0 geoOk) serverSentinel
    "2024-05-01").2 [noDateRow, otherDayRow] (by decide)

/-- C4: saving a collection to the cache file and loading it back yields a
collection equal field-for-field and in the same order to the original. -/
theorem c4_save_load_round_trip (es : List Event) :
    loadEventsFromFile ⟨some (saveEventsToFile es)⟩ = .ok es := by
  simp [loadEventsFromFile, saveEventsToFile, decode_encode_events]

/-- Counterexample for C6: the batch variant's geocoder performs no check on
the credential — with the credential absent it still issues the remote
request, and here succeeds, instead of failing with the configuration
error. -/
theorem c6_counterexample :
    geocodeAddressBatch ⟨""⟩ geoOk "215 N Lumpkin St" = .ok (-83, 33) :=
  rfl

/-- C6 (amended): in the interactive-server variant the geocoder fails with
the configuration error for every address when the credential is absent,
without consulting the remote service (the result is the same for every
world); the batch variant instead issues the request with the empty
credential. -/
theorem c6_amended_server_checks_credential (w : GeoWorld) (address : String) :
    geocodeAddress ⟨""⟩ w address = .error .configurationError ∧
    geocodeAddressBatch ⟨""⟩ w address = geocodeRequest w address "" :=
  ⟨rfl, rfl⟩

/-- Counterexample for C7: a matching row whose title selector yields the
empty string is extracted as an event with an empty title, so not every
extracted event has a non-empty title. -/
theorem c7_counterexample :
    (extractRows (geocodeAddress env0 geoOk) serverSentinel "2024-05-01"
        [noTitleRow]).map Event.title = [""] ∧
    ¬ (∀ e ∈ extractRows (geocodeAddress env0 geoOk) serverSentinel
        "2024-05-01" [noTitleRow], e.title ≠ "") :=
  ⟨rfl, by decide⟩

/-- C7 (amended): every event produced by extraction has a title equal to
the whitespace-trimmed title text of its source entry; extraction does not
enforce non-emptiness, so the title is empty when the entry carries no
title text. -/
theorem c7_amended_title_is_trimmed_text
    (g : String → Except GeoError (Int × Int)) (sentinel : Int × Int)
    (today : String) (rows : List Row) (e : Event)
    (he : e ∈ extractRows g sentinel today rows) :
    ∃ r ∈ rows, e.title = trimSpace r.titleText := by
  rw [extractRows, List.mem_filterMap] at he
  obtain ⟨r, hr, hsome⟩ := he
  exact ⟨r, hr, (extractRow_some_fields g sentinel today r e hsome).1⟩

/-- Witness for C7 (amended): the event extracted from the concrete one-row
listing has the trimmed title text of that row. -/
theorem c7_witness :
    ∃ r ∈ [exRow],
      (⟨"2024-05-01T19:00:00-04:00", "7:00 pm", "Music", "Show",
        "https://flagpole.com/e/1", "Georgia Theatre", "215 N Lumpkin St",
        "A concert.", 33, -83⟩ : Event).title = trimSpace r.titleText :=
  c7_amended_title_is_trimmed_text (geocodeAddress env0 geoOk)
    serverSentinel "2024-05-01" [exRow] _ (by decide)

/-- Counterexample for C8: extraction stores the whole `datetime` attribute
in `date`, so a row whose attribute carries a time component yields an event
whose `date` is not equal to the calendar day of the scrape. -/
theorem c8_counterexample :
    (extractRows (geocodeAddress env0 geoOk) serverSentinel "2024-05-01"
        [exRow]).map Event.date = ["2024-05-01T19:00:00-04:00"] ∧
    ("2024-05-01T19:00:00-04:00" : String) ≠ "2024-05-01" :=
  ⟨rfl, by decide⟩

/-- C8 (amended): every event produced by extraction has a `date` field
prefixed by the calendar day on which the scrape was run (the full
machine-readable attribute is stored, and the same-day filter guarantees
the prefix). -/
theorem c8_amended_date_has_day_as_its_start
    (g : String → Except GeoError (Int × Int)) (sentinel : Int × Int)
    (today : String) (rows : List Row) (e : Event)
    (he : e ∈ extractRows g sentinel today rows) :
    strHasPre e.date today = true := by
  rw [extractRows, List.mem_filterMap] at he
  obtain ⟨r, _, hsome⟩ := he
  exact (extractRow_some_fields g sentinel today r e hsome).2

/-- Witness for C8 (amended): the concrete extracted event's `date` starts
with the scrape day. -/
theorem c8_witness :
    strHasPre
      (⟨"2024-05-01T19:00:00-04:00", "7:00 pm", "Music", "Show",
        "https://flagpole.com/e/1", "Georgia Theatre", "215 N Lumpkin St",
        "A concert.", 33, -83⟩ : Event).date "2024-05-01" = true :=
  c8_amended_date_has_day_as_its_start (geocodeAddress env0 geoOk)
    serverSentinel "2024-05-01" [exRow] _ (by decide)

/-- Counterexample for C2: with a listing that scrapes to zero matching rows
(scrape succeeds with the empty collection), two successive calls return
identical collections, but two scrapes and one cache load occur across the
two calls — the second call does not return held state.  This refutes both
"only one underlying scrape or cache load occurs across the two calls" and
"once the loaded state is reached, every subsequent call returns the held
collection without re-scraping or re-loading" (an empty result never
reaches the loaded state). -/
theorem c2_counterexample :
    (getEventsN env0 emptyListingWorld "2024-05-01" true 2
        ⟨[], ⟨none⟩⟩).2.1 = [.ok [], .ok []] ∧
    (getEventsN env0 emptyListingWorld "2024-05-01" true 2
        ⟨[], ⟨none⟩⟩).2.2 = ⟨2, 1⟩ :=
  ⟨rfl, rfl⟩

/-- C2 (amended): if a call returns a non-empty collection, every following
call — under any environment, world, day and write outcome — returns the
identical collection with no further scrape and no further load, leaving
the state unchanged. -/
theorem c2_amended_idle_after_nonempty_result
    (env : Env) (w : World) (today : String) (wOk : Bool)
    (s : ProviderState) (es : List Event)
    (h1 : (getEvents env w today wOk s).2.1 = .ok es) (hne : es ≠ []) :
    ∀ n env₂ w₂ today₂ wOk₂,
      getEventsN env₂ w₂ today₂ wOk₂ n (getEvents env w today wOk s).1 =
        ((getEvents env w today wOk s).1, List.replicate n (.ok es),
         ⟨0, 0⟩) := by
  intro n env₂ w₂ today₂ wOk₂
  have hcache := getEvents_ok_cache env w today wOk s es h1
  have hld := getEventsN_loaded env₂ w₂ today₂ wOk₂ n
    (getEvents env w today wOk s).1 (by rw [hcache]; exact hne)
  rw [hld, hcache]

/-- Witness for C2 (amended): after a first call that scrapes one concrete
event, a second call under a different world returns the same collection
with zero scrapes and zero loads. -/
theorem c2_witness :
    getEventsN ⟨""⟩ fetchFailWorld "2099-01-01" false 1
        (getEvents env0 oneRowWorld "2024-05-01" true ⟨[], ⟨none⟩⟩).1 =
      ((getEvents env0 oneRowWorld "2024-05-01" true ⟨[], ⟨none⟩⟩).1,
       List.replicate 1 (.ok
         [⟨"2024-05-01T19:00:00-04:00", "7:00 pm", "Music", "Show",
           "https://flagpole.com/e/1", "Georgia Theatre",
           "215 N Lumpkin St", "A concert.", 33, -83⟩]),
       ⟨0, 0⟩) :=
  c2_amended_idle_after_nonempty_result env0 oneRowWorld "2024-05-01" true
    ⟨[], ⟨none⟩⟩ _ rfl (by decide) 1 ⟨""⟩ fetchFailWorld "2099-01-01" false

/-- C5: when the in-memory collection is empty, the cache file yields
nothing non-empty, and the scrape path fails, the error is propagated to
the caller, the in-memory collection stays empty, the file is untouched,
and any subsequent call runs the scrape again. -/
theorem c5_scrape_failure_propagates_state_empty
    (env : Env) (w : World) (today : String) (wOk : Bool)
    (s : ProviderState) (e : ScrapeError)
    (hc : s.eventsCache = [])
    (hl : ∀ es, loadEventsFromFile s.fs = .ok es → es = [])
    (hs : scrapeEvents env w today = .error e) :
    getEvents env w today wOk s =
      (⟨[], s.fs⟩, .error e, ⟨1, (loadPhase s).2⟩) ∧
    ∀ env₂ w₂ today₂ wOk₂,
      (getEvents env₂ w₂ today₂ wOk₂
        (getEvents env w today wOk s).1).2.2.scrapes = 1 := by
  have hload := loadPhase_empty s hc hl
  have h1 := getEvents_scrapeErr env w today wOk s e hload hs
  refine ⟨h1, ?_⟩
  intro env₂ w₂ today₂ wOk₂
  rw [h1]
  rw [getEvents_stats_when_empty env₂ w₂ today₂ wOk₂ ⟨[], s.fs⟩
    (loadPhase_empty ⟨[], s.fs⟩ rfl hl)]

/-- Witness for C5: with no cache file and a failing listing fetch, the
call returns the fetch error, the state stays empty, and a second call
scrapes again. -/
theorem c5_witness :
    getEvents env0 fetchFailWorld "2024-05-01" true ⟨[], ⟨none⟩⟩ =
      (⟨[], ⟨none⟩⟩, .error .fetchError, ⟨1, 0⟩) ∧
    ∀ env₂ w₂ today₂ wOk₂,
      (getEvents env₂ w₂ today₂ wOk₂
        (getEvents env0 fetchFailWorld "2024-05-01" true
          ⟨[], ⟨none⟩⟩).1).2.2.scrapes = 1 :=
  c5_scrape_failure_propagates_state_empty env0 fetchFailWorld "2024-05-01"
    true ⟨[], ⟨none⟩⟩ .fetchError rfl
    (fun es h => by simp [loadEventsFromFile] at h) rfl

/-- Counterexample for C9: the mutex serialises simultaneous callers, so N
first-ever calls execute as N consecutive calls; with a scrape that
succeeds with the empty collection, three serialised first-ever calls
against an empty cache perform three scrape invocations, not exactly
one. -/
theorem c9_counterexample :
    (getEventsN ⟨"tk"⟩ ⟨.resp 200 (.parsed []), geoDown⟩ "2024-07-04" false 3
        ⟨[], ⟨none⟩⟩).2.2.scrapes = 3 :=
  rfl

/-- C9 (amended): N serialised first-ever calls against an empty cache and
no cache file, with a scrape yielding a non-empty collection, perform
exactly one scrape and no load in total, and every caller receives the
identical resulting collection. -/
theorem c9_amended_one_scrape_when_scrape_nonempty
    (env : Env) (w : World) (today : String) (wOk : Bool)
    (n : Nat) (es : List Event)
    (hs : scrapeEvents env w today = .ok es) (hne : es ≠ []) :
    getEventsN env w today wOk (n + 1) ⟨[], ⟨none⟩⟩ =
      (⟨es, if wOk then FS.mk (some (saveEventsToFile es)) else ⟨none⟩⟩,
       List.replicate (n + 1) (.ok es), ⟨1, 0⟩) := by
  have hload : (loadPhase ⟨[], ⟨none⟩⟩).1 = [] := rfl
  have h1 := getEvents_scrapeOk env w today wOk ⟨[], ⟨none⟩⟩ es hload hs
  have h2 := getEventsN_loaded env w today wOk n
    ⟨es, if wOk then FS.mk (some (saveEventsToFile es)) else ⟨none⟩⟩
    (by simpa using hne)
  simp only [getEventsN, h1, h2, List.replicate_succ]
  rfl

/-- Witness for C9 (amended): three serialised first-ever calls against the
concrete one-row listing perform one scrape in total and all three callers
receive the same one-event collection. -/
theorem c9_witness :
    getEventsN env0 oneRowWorld "2024-05-01" true 3 ⟨[], ⟨none⟩⟩ =
      (⟨[⟨"2024-05-01T19:00:00-04:00", "7:00 pm", "Music", "Show",
          "https://flagpole.com/e/1", "Georgia Theatre", "215 N Lumpkin St",
          "A concert.", 33, -83⟩],
        FS.mk (some (saveEventsToFile
          [⟨"2024-05-01T19:00:00-04:00", "7:00 pm", "Music", "Show",
            "https://flagpole.com/e/1", "Georgia Theatre",
            "215 N Lumpkin St", "A concert.", 33, -83⟩]))⟩,
       List.replicate 3 (.ok
         [⟨"2024-05-01T19:00:00-04:00", "7:00 pm", "Music", "Show",
           "https://flagpole.com/e/1", "Georgia Theatre", "215 N Lumpkin St",
           "A concert.", 33, -83⟩]),
       ⟨1, 0⟩) :=
  c9_amended_one_scrape_when_scrape_nonempty env0 oneRowWorld "2024-05-01"
    true 2 _ rfl (by decide)

/-- C10: when the load block cannot supply a non-empty collection and the
scrape succeeds with the empty collection, the call returns the empty
collection without error and saves it to the cache file, but the empty
collection is never adopted as loaded state: any subsequent call re-runs
the full sequence, performing one load (of the file now decoding to the
empty collection, which again is not adopted) and one scrape. -/
theorem c10_empty_collection_never_adopted
    (env : Env) (w : World) (today : String) (s : ProviderState)
    (hc : s.eventsCache = [])
    (hl : ∀ es, loadEventsFromFile s.fs = .ok es → es = [])
    (hs : scrapeEvents env w today = .ok []) :
    getEvents env w today true s =
      (⟨[], FS.mk (some (saveEventsToFile []))⟩, .ok [],
       ⟨1, (loadPhase s).2⟩) ∧
    ∀ env₂ w₂ today₂ wOk₂,
      (getEvents env₂ w₂ today₂ wOk₂
        (getEvents env w today true s).1).2.2 = ⟨1, 1⟩ := by
  have hload := loadPhase_empty s hc hl
  have h1 : getEvents env w today true s =
      (⟨[], FS.mk (some (saveEventsToFile []))⟩, .ok [],
       ⟨1, (loadPhase s).2⟩) := by
    rw [getEvents_scrapeOk env w today true s [] hload hs]
    rfl
  refine ⟨h1, ?_⟩
  intro env₂ w₂ today₂ wOk₂
  rw [h1]
  rw [getEvents_stats_when_empty env₂ w₂ today₂ wOk₂
    ⟨[], FS.mk (some (saveEventsToFile []))⟩ rfl]
  rfl

/-- Witness for C10: a listing whose only row is dated another day scrapes
to the empty collection; the call returns it and saves it, and a second
call re-runs one load and one scrape. -/
theorem c10_witness :
    getEvents env0 ⟨.resp 200 (.parsed [otherDayRow]), geoOk⟩ "2024-05-01"
        true ⟨[], ⟨none⟩⟩ =
      (⟨[], FS.mk (some (saveEventsToFile []))⟩, .ok [], ⟨1, 0⟩) ∧
    ∀ env₂ w₂ today₂ wOk₂,
      (getEvents env₂ w₂ today₂ wOk₂
        (getEvents env0 ⟨.resp 200 (.parsed [otherDayRow]), geoOk⟩
          "2024-05-01" true ⟨[], ⟨none⟩⟩).1).2.2 = ⟨1, 1⟩ :=
  c10_empty_collection_never_adopted env0
    ⟨.resp 200 (.parsed [otherDayRow]), geoOk⟩ "2024-05-01" ⟨[], ⟨none⟩⟩
    rfl (fun es h => by simp [loadEventsFromFile] at h) rfl

end Mapthens
